import Mathlib

/-!
Verification development for the mofh client library
(`src/mofh/main.py`, `src/mofh/errors.py`).

The core under study is the response-parsing and error-classification
layer: each operation of `Client` / `AsyncClient` takes the raw response
text returned by the HTTP transport and either returns a typed success
value or raises `APIError(message, status)`.  The transport itself is an
external collaborator, so every operation is embedded here as a pure
function from the raw response text to an `Outcome`.

Python exceptions other than `APIError` that the code lets escape
(XML `ParseError`, `IndexError` from positional child access,
`TypeError` from `int(None)`) are modelled by the `Outcome.exn`
constructor.
-/

/-- Python exceptions (other than `APIError`) that the classification code
can raise or let escape. -/
inductive PyExn where
  | parseErr (msg : String)
  | indexErr
  | typeErr
  | valueErr
deriving DecidableEq

/-- The outcome of one operation on a given raw response text:
a typed success value, a raised `APIError(message, status)`
(`errors.py`: `message : Optional[str]`, `status : int`), or an escaped
non-`APIError` Python exception. -/
inductive Outcome (α : Type) where
  | success (val : α)
  | apiError (message : Option String) (status : Int)
  | exn (e : PyExn)
deriving DecidableEq

/-- `true` iff the outcome is one of the two contractual shapes:
a typed success value or a raised `APIError`. -/
def Outcome.isClassified {α : Type} : Outcome α → Bool
  | .success _ => true
  | .apiError _ _ => true
  | .exn _ => false

/-- ASCII whitespace, the characters stripped by Python's `int(str)`
conversion and skipped by its parsers. -/
def isSpace (c : Char) : Bool :=
  c = ' ' || c = '\t' || c = '\n' || c = '\r' || c = Char.ofNat 11 || c = Char.ofNat 12

/-- Drop leading whitespace characters. -/
def skipWs : List Char → List Char
  | [] => []
  | c :: cs => if isSpace c then skipWs cs else c :: cs

/-- Strip whitespace from both ends of a character list. -/
def stripWs (cs : List Char) : List Char :=
  (skipWs (skipWs cs.reverse).reverse)

/-- Digit-run tail of Python's integer-literal grammar: the remaining
characters must be digits, with single underscores allowed between
digits (`digit (( '_' )? digit)*`). -/
def digitsUGo (acc : Nat) : List Char → Option Nat
  | [] => some acc
  | '_' :: c :: cs =>
    if c.isDigit then digitsUGo (acc * 10 + (c.toNat - 48)) cs else none
  | ['_'] => none
  | c :: cs =>
    if c.isDigit then digitsUGo (acc * 10 + (c.toNat - 48)) cs else none

/-- A full decimal digit run (Python underscore grouping allowed);
`none` when the characters are not exactly such a run. -/
def digitsU : List Char → Option Nat
  | [] => none
  | c :: cs => if c.isDigit then digitsUGo (c.toNat - 48) cs else none

/-- Python's `int(s)` on a `str`: strip whitespace, optional single sign,
then a decimal digit run; `none` models `ValueError`. -/
def pyIntOfString (s : String) : Option Int :=
  match stripWs s.data with
  | '+' :: rest => (digitsU rest).map Int.ofNat
  | '-' :: rest => (digitsU rest).map (fun n => -(Int.ofNat n))
  | cs => (digitsU cs).map Int.ofNat

/-- Python's `int(x)` where `x` is the `.text` of an XML element
(`Optional[str]`): `int(None)` raises `TypeError`, a non-numeric string
raises `ValueError`. -/
def pyIntOfText : Option String → Except PyExn Int
  | Option.none => .error .typeErr
  | some s =>
    match pyIntOfString s with
    | some n => .ok n
    | Option.none => .error .valueErr

/-- An XML element as produced by `ElementTree.fromstring`
(`main.py`: `_parse_xml`): a tag, the text between the opening tag and
the first child element (`None` when empty), and the list of child
elements.  Attributes and tail text are not read by any operation and
are omitted from the model. -/
inductive XTree where
  | elem (tag : String) (text : Option String) (children : List XTree)

/-- Tag name of an element. -/
def XTree.tag : XTree → String
  | .elem t _ _ => t

/-- `.text` of an element (`None` becomes `Option.none`). -/
def XTree.text : XTree → Option String
  | .elem _ tx _ => tx

/-- Child elements of an element. -/
def XTree.children : XTree → List XTree
  | .elem _ _ cs => cs

/-- Positional child access `element[i]` on an `ElementTree` element:
out-of-range access raises `IndexError`. -/
def XTree.child (t : XTree) (i : Nat) : Except PyExn XTree :=
  match t.children.get? i with
  | some c => .ok c
  | Option.none => .error .indexErr

/-- Characters allowed in a tag name by the modelled XML subset. -/
def isNameChar (c : Char) : Bool :=
  c.isAlphanum || c = '_' || c = '-' || c = '.' || c = ':'

/-- Longest prefix of tag-name characters, with the rest of the input. -/
def takeName : List Char → List Char × List Char
  | [] => ([], [])
  | c :: cs =>
    if isNameChar c then
      let p := takeName cs
      (c :: p.1, p.2)
    else ([], c :: cs)

/-- Longest prefix of character data (characters other than a tag-open
bracket), with the rest of the input. -/
def takeText : List Char → List Char × List Char
  | [] => ([], [])
  | c :: cs =>
    if c = '<' then ([], c :: cs)
    else
      let p := takeText cs
      (c :: p.1, p.2)

mutual

/-- Model of `defusedxml.ElementTree.fromstring` on one element, for the
subset grammar the remote API uses (nested tags, text content, no
attributes, no entity references): `<name>content</name>` or
`<name/>`.  Inputs outside the subset yield a parse error, matching
`ParseError` on non-well-formed input.  Fuel bounds recursion depth and
is chosen larger than the input length by the caller. -/
def parseElem : Nat → List Char → Except String (XTree × List Char)
  | 0, _ => .error "no fuel"
  | fuel + 1, cs =>
    match cs with
    | '<' :: rest =>
      match takeName rest with
      | (nm, rest1) =>
        if nm.isEmpty then .error "expected tag name"
        else
          match rest1 with
          | '/' :: '>' :: rest2 => .ok (.elem (String.mk nm) Option.none [], rest2)
          | '>' :: rest2 =>
            match takeText rest2 with
            | (txt, rest3) =>
              match parseChildren fuel rest3 with
              | .error e => .error e
              | .ok (kids, rest4) =>
                match rest4 with
                | '<' :: '/' :: rest5 =>
                  match takeName rest5 with
                  | (nm2, rest6) =>
                    match rest6 with
                    | '>' :: rest7 =>
                      if nm2 = nm then
                        .ok (.elem (String.mk nm)
                              (if txt.isEmpty then Option.none else some (String.mk txt))
                              kids, rest7)
                      else .error "mismatched tag"
                    | _ => .error "malformed closing tag"
                | _ => .error "unclosed element"
          | _ => .error "malformed start tag"
    | _ => .error "expected element"

/-- Child elements of an element's content: a sequence of elements with
interleaved character data, ending at the parent's closing tag. -/
def parseChildren : Nat → List Char → Except String (List XTree × List Char)
  | 0, _ => .error "no fuel"
  | fuel + 1, cs =>
    match cs with
    | '<' :: '/' :: rest => .ok ([], '<' :: '/' :: rest)
    | '<' :: rest =>
      match parseElem fuel ('<' :: rest) with
      | .error e => .error e
      | .ok (t, rest1) =>
        match takeText rest1 with
        | (_, rest2) =>
          match parseChildren fuel rest2 with
          | .error e => .error e
          | .ok (ts, rest3) => .ok (t :: ts, rest3)
    | _ => .error "unexpected end of input"

end

/-- Model of `ElementTree.fromstring` on a whole document of the
modelled subset: optional surrounding whitespace around exactly one
root element; anything else is a parse error. -/
def parseXml (s : String) : Except String XTree :=
  match parseElem (s.length + 1) (skipWs s.data) with
  | .error e => .error e
  | .ok (t, rest) =>
    if (skipWs rest).isEmpty then .ok t else .error "junk after document element"

/-- A Python value producible by `ast.literal_eval` in the subset the
remote API emits: integers, strings, booleans, `None`, lists, and
dictionaries. -/
inductive PyVal where
  | int (n : Int)
  | str (s : String)
  | bool (b : Bool)
  | none
  | list (xs : List PyVal)
  | dict (kvs : List (PyVal × PyVal))

/-- Opening brace character, written via its code point. -/
def lbrace : Char := Char.ofNat 123

/-- Closing brace character, written via its code point. -/
def rbrace : Char := Char.ofNat 125

/-- Single-quote character. -/
def squote : Char := Char.ofNat 39

/-- Double-quote character. -/
def dquote : Char := Char.ofNat 34

/-- Backslash character. -/
def bslash : Char := Char.ofNat 92

/-- Body of a Python string literal up to the closing quote `q`,
supporting the plain escapes the API's output can contain. -/
def takeStr (q : Char) : Nat → List Char → Option (List Char × List Char)
  | 0, _ => Option.none
  | _, [] => Option.none
  | fuel + 1, c :: cs =>
    if c = q then some ([], cs)
    else if c = bslash then
      match cs with
      | [] => Option.none
      | e :: cs1 =>
        let esc : Option Char :=
          if e = 'n' then some '\n'
          else if e = 't' then some '\t'
          else if e = bslash then some bslash
          else if e = squote then some squote
          else if e = dquote then some dquote
          else Option.none
        match esc with
        | Option.none => Option.none
        | some ch =>
          match takeStr q fuel cs1 with
          | Option.none => Option.none
          | some (body, rest) => some (ch :: body, rest)
    else
      match takeStr q fuel cs with
      | Option.none => Option.none
      | some (body, rest) => some (c :: body, rest)

/-- Longest prefix of identifier characters. -/
def takeIdent : List Char → List Char × List Char
  | [] => ([], [])
  | c :: cs =>
    if c.isAlphanum || c = '_' then
      let p := takeIdent cs
      (c :: p.1, p.2)
    else ([], c :: cs)

/-- Longest prefix of decimal digits, with the rest of the input. -/
def takeWhileDigits : List Char → List Char × List Char
  | [] => ([], [])
  | c :: cs =>
    if c.isDigit then
      let p := takeWhileDigits cs
      (c :: p.1, p.2)
    else ([], c :: cs)

/-- Decimal digit run at the head of the input (the literal grammar the
API emits), with its value and the rest. -/
def digitsPrefix (cs : List Char) : Option (Nat × List Char) :=
  match cs with
  | [] => Option.none
  | c :: _ =>
    if c.isDigit then
      match digitsU (takeWhileDigits cs).1 with
      | some n => some (n, (takeWhileDigits cs).2)
      | Option.none => Option.none
    else Option.none

mutual

/-- Model of `ast.literal_eval`'s expression grammar on the subset the
remote API emits (`None`/`True`/`False`, optionally signed integers,
quoted strings, list displays, dict displays).  `Option.none` models the
`ValueError`/`SyntaxError` both caught by the callers. -/
def parseVal : Nat → List Char → Option (PyVal × List Char)
  | 0, _ => Option.none
  | fuel + 1, cs0 =>
    match skipWs cs0 with
    | [] => Option.none
    | c :: cs =>
      if c = '[' then
        match parseListItems fuel (skipWs cs) with
        | Option.none => Option.none
        | some (vs, rest) => some (.list vs, rest)
      else if c = lbrace then
        match parseDictItems fuel (skipWs cs) with
        | Option.none => Option.none
        | some (kvs, rest) => some (.dict kvs, rest)
      else if c = squote then
        match takeStr squote (fuel + 1) cs with
        | some (body, rest) => some (.str (String.mk body), rest)
        | Option.none => Option.none
      else if c = dquote then
        match takeStr dquote (fuel + 1) cs with
        | some (body, rest) => some (.str (String.mk body), rest)
        | Option.none => Option.none
      else if c = '+' then
        match digitsPrefix cs with
        | some (n, rest) => some (.int (Int.ofNat n), rest)
        | Option.none => Option.none
      else if c = '-' then
        match digitsPrefix cs with
        | some (n, rest) => some (.int (-(Int.ofNat n)), rest)
        | Option.none => Option.none
      else if c.isDigit then
        match digitsPrefix (c :: cs) with
        | some (n, rest) => some (.int (Int.ofNat n), rest)
        | Option.none => Option.none
      else
        match takeIdent (c :: cs) with
        | (nm, rest) =>
          if String.mk nm = "None" then some (.none, rest)
          else if String.mk nm = "True" then some (.bool true, rest)
          else if String.mk nm = "False" then some (.bool false, rest)
          else Option.none

/-- Items of a list display after the opening bracket.  Allows a
trailing comma, as Python does. -/
def parseListItems : Nat → List Char → Option (List PyVal × List Char)
  | 0, _ => Option.none
  | fuel + 1, cs =>
    match cs with
    | [] => Option.none
    | c :: cs1 =>
      if c = ']' then some ([], cs1)
      else
        match parseVal fuel (c :: cs1) with
        | Option.none => Option.none
        | some (v, rest) =>
          match skipWs rest with
          | ']' :: rest1 => some ([v], rest1)
          | ',' :: rest1 =>
            match parseListItems fuel (skipWs rest1) with
            | Option.none => Option.none
            | some (vs, rest2) => some (v :: vs, rest2)
          | _ => Option.none

/-- Items of a dict display after the opening brace.  Allows a trailing
comma. -/
def parseDictItems : Nat → List Char → Option (List (PyVal × PyVal) × List Char)
  | 0, _ => Option.none
  | fuel + 1, cs =>
    match cs with
    | [] => Option.none
    | c :: cs1 =>
      if c = rbrace then some ([], cs1)
      else
        match parseVal fuel (c :: cs1) with
        | Option.none => Option.none
        | some (k, rest) =>
          match skipWs rest with
          | ':' :: rest1 =>
            match parseVal fuel rest1 with
            | Option.none => Option.none
            | some (v, rest2) =>
              match skipWs rest2 with
              | c2 :: rest3 =>
                if c2 = rbrace then some ([(k, v)], rest3)
                else if c2 = ',' then
                  match parseDictItems fuel (skipWs rest3) with
                  | Option.none => Option.none
                  | some (kvs, rest4) => some ((k, v) :: kvs, rest4)
                else Option.none
              | [] => Option.none
          | _ => Option.none

end

/-- Model of `ast.literal_eval` on a whole response text: one literal of
the subset grammar, with surrounding whitespace, and nothing after it. -/
def literalEval (s : String) : Option PyVal :=
  match parseVal (s.length + 1) s.data with
  | Option.none => Option.none
  | some (v, rest) =>
    if (skipWs rest).isEmpty then some v else Option.none

namespace Client

/-- `Client._parse_xml`: parse the XML response and return the root
element. -/
def parse_xml (response : String) : Except String XTree :=
  parseXml response

/-- `Client.create` response handling (`main.py` lines 106-117): parse
the XML (no exception handler, so a parse error escapes), read
`root[0][2].text` as the status; on `"1"` return `root[0][0][1].text`,
otherwise raise `APIError(root[0][3].text, 0)`. -/
def create (response : String) : Outcome (Option String) :=
  match parse_xml response with
  | .error e => .exn (.parseErr e)
  | .ok root =>
    match root.child 0 with
    | .error e => .exn e
    | .ok r0 =>
      match r0.child 2 with
      | .error e => .exn e
      | .ok st =>
        if st.text = some "1" then
          match r0.child 0 with
          | .error e => .exn e
          | .ok r00 =>
            match r00.child 1 with
            | .error e => .exn e
            | .ok r001 => .success r001.text
        else
          match r0.child 3 with
          | .error e => .exn e
          | .ok r03 => .apiError r03.text 0

/-- `Client.suspend` response handling (`main.py` lines 140-153):
`ParseError` is caught and re-raised as `APIError(response, 0)`; the
status is `root[0][0].text`; `int(status)` is returned, a `ValueError`
becomes `APIError(response, 0)`, while `IndexError` and `TypeError`
are caught by neither handler and escape. -/
def suspend (response : String) : Outcome Int :=
  match parse_xml response with
  | .error _ => .apiError (some response) 0
  | .ok root =>
    match root.child 0 with
    | .error e => .exn e
    | .ok r0 =>
      match r0.child 0 with
      | .error e => .exn e
      | .ok st =>
        match pyIntOfText st.text with
        | .ok n => .success n
        | .error .valueErr => .apiError (some response) 0
        | .error e => .exn e

/-- `Client.unsuspend` response handling (`main.py` lines 175-188):
identical to `suspend`. -/
def unsuspend (response : String) : Outcome Int :=
  match parse_xml response with
  | .error _ => .apiError (some response) 0
  | .ok root =>
    match root.child 0 with
    | .error e => .exn e
    | .ok r0 =>
      match r0.child 0 with
      | .error e => .exn e
      | .ok st =>
        match pyIntOfText st.text with
        | .ok n => .success n
        | .error .valueErr => .apiError (some response) 0
        | .error e => .exn e

/-- `Client.change_password` response handling (`main.py` lines
211-224): the status is `root[0][5].text` (the sixth child of the
root's first child); `ValueError` from `int` becomes
`APIError(response, 0)` and `ParseError` becomes
`APIError("Invalid username provided.", 0)`. -/
def change_password (response : String) : Outcome Int :=
  match parse_xml response with
  | .error _ => .apiError (some "Invalid username provided.") 0
  | .ok root =>
    match root.child 0 with
    | .error e => .exn e
    | .ok r0 =>
      match r0.child 5 with
      | .error e => .exn e
      | .ok st =>
        match pyIntOfText st.text with
        | .ok n => .success n
        | .error .valueErr => .apiError (some response) 0
        | .error e => .exn e

/-- `Client.domain_available` response handling (`main.py` lines
246-252): `int(response)`, with `ValueError` becoming
`APIError(response, 0)`. -/
def domain_available (response : String) : Outcome Int :=
  match pyIntOfString response with
  | some n => .success n
  | Option.none => .apiError (some response) 0

/-- `Client.user_domains` response handling (`main.py` lines 278-287):
the literal text `"null"` returns `0`; otherwise
`ast.literal_eval(response)` is returned, with `ValueError` or
`SyntaxError` becoming `APIError(response, 0)`. -/
def user_domains (response : String) : Outcome PyVal :=
  if response = "null" then .success (.int 0)
  else
    match literalEval response with
    | some v => .success v
    | Option.none => .apiError (some response) 0

/-- `Client.user_by_domain` response handling (`main.py` lines 309-318):
identical to `user_domains`. -/
def user_by_domain (response : String) : Outcome PyVal :=
  if response = "null" then .success (.int 0)
  else
    match literalEval response with
    | some v => .success v
    | Option.none => .apiError (some response) 0

end Client

namespace AsyncClient

/-- `AsyncClient._parse_xml`: identical to the blocking variant. -/
def parse_xml (response : String) : Except String XTree :=
  parseXml response

/-- `AsyncClient.create` response handling (`main.py` lines 432-443):
identical to the blocking variant. -/
def create (response : String) : Outcome (Option String) :=
  match parse_xml response with
  | .error e => .exn (.parseErr e)
  | .ok root =>
    match root.child 0 with
    | .error e => .exn e
    | .ok r0 =>
      match r0.child 2 with
      | .error e => .exn e
      | .ok st =>
        if st.text = some "1" then
          match r0.child 0 with
          | .error e => .exn e
          | .ok r00 =>
            match r00.child 1 with
            | .error e => .exn e
            | .ok r001 => .success r001.text
        else
          match r0.child 3 with
          | .error e => .exn e
          | .ok r03 => .apiError r03.text 0

/-- `AsyncClient.suspend` response handling (`main.py` lines 466-479):
identical to the blocking variant. -/
def suspend (response : String) : Outcome Int :=
  match parse_xml response with
  | .error _ => .apiError (some response) 0
  | .ok root =>
    match root.child 0 with
    | .error e => .exn e
    | .ok r0 =>
      match r0.child 0 with
      | .error e => .exn e
      | .ok st =>
        match pyIntOfText st.text with
        | .ok n => .success n
        | .error .valueErr => .apiError (some response) 0
        | .error e => .exn e

/-- `AsyncClient.unsuspend` response handling (`main.py` lines 501-514):
identical to the blocking variant. -/
def unsuspend (response : String) : Outcome Int :=
  match parse_xml response with
  | .error _ => .apiError (some response) 0
  | .ok root =>
    match root.child 0 with
    | .error e => .exn e
    | .ok r0 =>
      match r0.child 0 with
      | .error e => .exn e
      | .ok st =>
        match pyIntOfText st.text with
        | .ok n => .success n
        | .error .valueErr => .apiError (some response) 0
        | .error e => .exn e

/-- `AsyncClient.change_password` response handling (`main.py` lines
537-550): unlike the blocking variant, the status is `root[0][0].text`
(the first child of the root's first child). -/
def change_password (response : String) : Outcome Int :=
  match parse_xml response with
  | .error _ => .apiError (some "Invalid username provided.") 0
  | .ok root =>
    match root.child 0 with
    | .error e => .exn e
    | .ok r0 =>
      match r0.child 0 with
      | .error e => .exn e
      | .ok st =>
        match pyIntOfText st.text with
        | .ok n => .success n
        | .error .valueErr => .apiError (some response) 0
        | .error e => .exn e

/-- `AsyncClient.domain_available` response handling (`main.py` lines
572-578): identical to the blocking variant. -/
def domain_available (response : String) : Outcome Int :=
  match pyIntOfString response with
  | some n => .success n
  | Option.none => .apiError (some response) 0

/-- `AsyncClient.user_domains` response handling (`main.py` lines
604-612): identical to the blocking variant. -/
def user_domains (response : String) : Outcome PyVal :=
  if response = "null" then .success (.int 0)
  else
    match literalEval response with
    | some v => .success v
    | Option.none => .apiError (some response) 0

/-- `AsyncClient.user_by_domain` response handling (`main.py` lines
634-643): identical to the blocking variant. -/
def user_by_domain (response : String) : Outcome PyVal :=
  if response = "null" then .success (.int 0)
  else
    match literalEval response with
    | some v => .success v
    | Option.none => .apiError (some response) 0

end AsyncClient

/-- Map a function over the success value of an outcome, leaving raised
errors unchanged. -/
def Outcome.map {α β : Type} (f : α → β) : Outcome α → Outcome β
  | .success a => .success (f a)
  | .apiError m st => .apiError m st
  | .exn e => .exn e

/-- An `Optional[str]` return value embedded as a Python value. -/
def pyOfTextOpt : Option String → PyVal
  | Option.none => PyVal.none
  | some s => PyVal.str s

/-- The state of a client instance: the immutable credentials and base
URL set at construction, and whether the lazily-created transport
session exists yet (the only mutable field; its connection internals
belong to the external HTTP library). -/
structure ClientData where
  username : String
  password : String
  api_url : String
  has_session : Bool

/-- `_ensure_session`: create the transport session on first use and
keep it thereafter. -/
def ensure_session (st : ClientData) : ClientData :=
  { st with has_session := true }

/-- The seven remote operations of the client. -/
inductive OpKind where
  | create
  | suspend
  | unsuspend
  | change_password
  | domain_available
  | user_domains
  | user_by_domain

/-- One full call of a blocking `Client` operation, given the raw text
the transport returns for it: ensure the session exists, then classify
the response.  Success values of the different operations are embedded
into `PyVal` to give the calls a common type. -/
def Client.runOp (st : ClientData) (k : OpKind) (response : String) :
    Outcome PyVal × ClientData :=
  match k with
  | .create => ((Client.create response).map pyOfTextOpt, ensure_session st)
  | .suspend => ((Client.suspend response).map PyVal.int, ensure_session st)
  | .unsuspend => ((Client.unsuspend response).map PyVal.int, ensure_session st)
  | .change_password => ((Client.change_password response).map PyVal.int, ensure_session st)
  | .domain_available => ((Client.domain_available response).map PyVal.int, ensure_session st)
  | .user_domains => (Client.user_domains response, ensure_session st)
  | .user_by_domain => (Client.user_by_domain response, ensure_session st)

/-- One full call of a non-blocking `AsyncClient` operation, given the
raw text the transport returns for it. -/
def AsyncClient.runOp (st : ClientData) (k : OpKind) (response : String) :
    Outcome PyVal × ClientData :=
  match k with
  | .create => ((AsyncClient.create response).map pyOfTextOpt, ensure_session st)
  | .suspend => ((AsyncClient.suspend response).map PyVal.int, ensure_session st)
  | .unsuspend => ((AsyncClient.unsuspend response).map PyVal.int, ensure_session st)
  | .change_password => ((AsyncClient.change_password response).map PyVal.int, ensure_session st)
  | .domain_available => ((AsyncClient.domain_available response).map PyVal.int, ensure_session st)
  | .user_domains => (AsyncClient.user_domains response, ensure_session st)
  | .user_by_domain => (AsyncClient.user_by_domain response, ensure_session st)

/-- C1: for the account-creation classifier (`Client.create` /
`AsyncClient.create`), given well-formed XML whose status field (text of
the third child of the root's first child) equals `"1"`, the call
returns the text of the nested identifier field (second child of the
first child of the root's first child); for every other status text it
raises `APIError` carrying the error field's text as message and the
non-`"1"` status marker `0`. -/
theorem c1_create_classification (s : String) (root r0 st : XTree)
    (hp : parseXml s = .ok root)
    (h0 : root.child 0 = .ok r0)
    (h2 : r0.child 2 = .ok st) :
    (∀ idp idn, st.text = some "1" → r0.child 0 = .ok idp → idp.child 1 = .ok idn →
      Client.create s = .success idn.text ∧ AsyncClient.create s = .success idn.text)
    ∧ (∀ err, st.text ≠ some "1" → r0.child 3 = .ok err →
      Client.create s = .apiError err.text 0
      ∧ AsyncClient.create s = .apiError err.text 0) := by
  constructor
  · intro idp idn h1 hidp hidn
    constructor <;>
      simp [Client.create, AsyncClient.create, Client.parse_xml, AsyncClient.parse_xml,
        hp, h0, h2, h1, hidp, hidn]
  · intro err hne herr
    constructor <;>
      simp [Client.create, AsyncClient.create, Client.parse_xml, AsyncClient.parse_xml,
        hp, h0, h2, hne, herr]

/-- Witness for C1: a successful creation response returns the nested
vPanel username, and the spec's end-to-end scenario (status `"0"`,
error text `"The API username you are using appears to be invalid"`)
raises `APIError` with exactly that message. -/
theorem c1_create_classification_witness :
    Client.create "<r><a><u><x></x><n>uname</n></u><b></b><s>1</s><e></e></a></r>"
      = .success (some "uname")
    ∧ Client.create "<r><a><u><x></x><n>un</n></u><b></b><s>0</s><e>The API username you are using appears to be invalid</e></a></r>"
      = .apiError (some "The API username you are using appears to be invalid") 0 := by
  constructor
  · exact ((c1_create_classification
      "<r><a><u><x></x><n>uname</n></u><b></b><s>1</s><e></e></a></r>"
      _ _ _ rfl rfl rfl).1 _ _ rfl rfl rfl).1
  · exact ((c1_create_classification
      "<r><a><u><x></x><n>un</n></u><b></b><s>0</s><e>The API username you are using appears to be invalid</e></a></r>"
      _ _ _ rfl rfl rfl).2 _ (by decide) rfl).1

/-- C2 counterexample: the claim says that for input that is not
well-formed XML, `create` raises `APIError`; in the code `create` has no
exception handler, so the XML parse error escapes unwrapped and the
outcome is neither a success value nor an `APIError`. -/
theorem c2_cex_create_parse_escape :
    (Client.create "not xml").isClassified = false := by decide

/-- C2 (amended): for input that is not well-formed XML, `suspend` and
`unsuspend` raise `APIError` with status 0 and the raw response body as
message, and `change_password` raises `APIError` with status 0 and the
fixed message `"Invalid username provided."`; `create`, having no
handler, lets the XML parse error itself escape instead of raising
`APIError`. -/
theorem c2_malformed_xml (s e : String) (hp : parseXml s = .error e) :
    Client.suspend s = .apiError (some s) 0
    ∧ Client.unsuspend s = .apiError (some s) 0
    ∧ Client.change_password s = .apiError (some "Invalid username provided.") 0
    ∧ Client.create s = .exn (.parseErr e)
    ∧ AsyncClient.suspend s = .apiError (some s) 0
    ∧ AsyncClient.unsuspend s = .apiError (some s) 0
    ∧ AsyncClient.change_password s = .apiError (some "Invalid username provided.") 0
    ∧ AsyncClient.create s = .exn (.parseErr e) := by
  refine ⟨?_, ?_, ?_, ?_, ?_, ?_, ?_, ?_⟩ <;>
    simp [Client.suspend, Client.unsuspend, Client.change_password, Client.create,
      AsyncClient.suspend, AsyncClient.unsuspend, AsyncClient.change_password,
      AsyncClient.create, Client.parse_xml, AsyncClient.parse_xml, hp]

/-- Witness for C2 (amended) at the concrete non-XML body `"not xml"`. -/
theorem c2_malformed_xml_witness :
    Client.suspend "not xml" = .apiError (some "not xml") 0
    ∧ Client.change_password "not xml"
      = .apiError (some "Invalid username provided.") 0 := by
  exact ⟨(c2_malformed_xml "not xml" _ rfl).1,
         (c2_malformed_xml "not xml" _ rfl).2.2.1⟩

/-- C3 counterexample: the claim locates the status field at the first
child of the root element; on XML whose first child of root has integer
text `7`, `suspend` does not return `7` (the code reads `root[0][0]`,
the first child's first child, and the resulting `IndexError`
escapes). -/
theorem c3_cex_status_position :
    Client.suspend "<r><a>7</a></r>" ≠ Outcome.success (7 : Int) := by decide

/-- C3 (amended): for the single-status operations the status field is
the first child of the root's FIRST CHILD (`root[0][0]`) for `suspend`,
`unsuspend` and `AsyncClient.change_password`, and the sixth child of
the root's first child (`root[0][5]`) for `Client.change_password`;
when that element exists and its text is parseable as an integer `N`,
the classifier returns `N`. -/
theorem c3_status_grandchild (s : String) (root r0 : XTree)
    (hp : parseXml s = .ok root) (h0 : root.child 0 = .ok r0) :
    (∀ st n, r0.child 0 = .ok st → pyIntOfText st.text = .ok n →
      Client.suspend s = .success n ∧ Client.unsuspend s = .success n
      ∧ AsyncClient.suspend s = .success n ∧ AsyncClient.unsuspend s = .success n
      ∧ AsyncClient.change_password s = .success n)
    ∧ (∀ st n, r0.child 5 = .ok st → pyIntOfText st.text = .ok n →
      Client.change_password s = .success n) := by
  constructor
  · intro st n hst hn
    refine ⟨?_, ?_, ?_, ?_, ?_⟩ <;>
      simp [Client.suspend, Client.unsuspend, AsyncClient.suspend, AsyncClient.unsuspend,
        AsyncClient.change_password, Client.parse_xml, AsyncClient.parse_xml,
        hp, h0, hst, hn]
  · intro st n hst hn
    simp [Client.change_password, Client.parse_xml, hp, h0, hst, hn]

/-- Witness for C3 (amended): a status element at `root[0][0]` with text
`"7"` makes `suspend` return `7`, and a status element at `root[0][5]`
with text `"2"` makes `Client.change_password` return `2`. -/
theorem c3_status_grandchild_witness :
    Client.suspend "<r><a><s>7</s></a></r>" = .success 7
    ∧ Client.change_password
        "<r><a><b>1</b><b>1</b><b>1</b><b>1</b><b>1</b><b>2</b></a></r>"
      = .success 2 := by
  constructor
  · exact ((c3_status_grandchild "<r><a><s>7</s></a></r>" _ _ rfl rfl).1
      _ 7 rfl rfl).1
  · exact (c3_status_grandchild
      "<r><a><b>1</b><b>1</b><b>1</b><b>1</b><b>1</b><b>2</b></a></r>"
      _ _ rfl rfl).2 _ 2 rfl rfl

/-- C4 counterexample: on a response whose root's first child has six
children (first with text `"1"`, sixth with text `"2"`), the blocking
facade returns `2` (it reads `root[0][5]`) while the non-blocking
facade returns `1` (it reads `root[0][0]`), so the two `change_password`
variants do not classify identically. -/
theorem c4_cex_change_password_divergence :
    Client.change_password
        "<r><a><b>1</b><b>1</b><b>1</b><b>1</b><b>1</b><b>2</b></a></r>"
      ≠ AsyncClient.change_password
        "<r><a><b>1</b><b>1</b><b>1</b><b>1</b><b>1</b><b>2</b></a></r>" := by decide

/-- C4 (amended): the blocking and non-blocking facades classify every
response identically for `create`, `suspend`, `unsuspend`,
`domain_available`, `user_domains` and `user_by_domain`;
`change_password` is the exception, where the blocking variant reads
the status from `root[0][5]` and the non-blocking one from
`root[0][0]`. -/
theorem c4_facades_agree_except_chpass :
    (∀ s, AsyncClient.create s = Client.create s)
    ∧ (∀ s, AsyncClient.suspend s = Client.suspend s)
    ∧ (∀ s, AsyncClient.unsuspend s = Client.unsuspend s)
    ∧ (∀ s, AsyncClient.domain_available s = Client.domain_available s)
    ∧ (∀ s, AsyncClient.user_domains s = Client.user_domains s)
    ∧ (∀ s, AsyncClient.user_by_domain s = Client.user_by_domain s) :=
  ⟨fun _ => rfl, fun _ => rfl, fun _ => rfl, fun _ => rfl, fun _ => rfl, fun _ => rfl⟩

/-- C5 counterexample: on well-formed XML whose status element
(`root[0][5]` for the blocking `change_password`) has the non-integer
text `"abc"`, the raised `APIError` carries the raw response as its
message, not the operation-specific default
`"Invalid username provided."` the claim requires. -/
theorem c5_cex_change_password_message :
    Client.change_password
        "<r><a><b>x</b><b>x</b><b>x</b><b>x</b><b>x</b><b>abc</b></a></r>"
      ≠ Outcome.apiError (some "Invalid username provided.") 0 := by decide

/-- C5 (amended): for every single-status operation, when the XML parses
and the status element's text is a string that is not parseable as an
integer, the classifier raises `APIError` with status 0 and the RAW
RESPONSE TEXT as message — for `change_password` as well; the fixed
message `"Invalid username provided."` occurs only when the XML itself
fails to parse. -/
theorem c5_nonint_status_raw_message (s : String) (root r0 : XTree)
    (hp : parseXml s = .ok root) (h0 : root.child 0 = .ok r0) :
    (∀ st, r0.child 0 = .ok st → pyIntOfText st.text = .error .valueErr →
      Client.suspend s = .apiError (some s) 0
      ∧ Client.unsuspend s = .apiError (some s) 0
      ∧ AsyncClient.suspend s = .apiError (some s) 0
      ∧ AsyncClient.unsuspend s = .apiError (some s) 0
      ∧ AsyncClient.change_password s = .apiError (some s) 0)
    ∧ (∀ st, r0.child 5 = .ok st → pyIntOfText st.text = .error .valueErr →
      Client.change_password s = .apiError (some s) 0) := by
  constructor
  · intro st hst hv
    refine ⟨?_, ?_, ?_, ?_, ?_⟩ <;>
      simp [Client.suspend, Client.unsuspend, AsyncClient.suspend, AsyncClient.unsuspend,
        AsyncClient.change_password, Client.parse_xml, AsyncClient.parse_xml,
        hp, h0, hst, hv]
  · intro st hst hv
    simp [Client.change_password, Client.parse_xml, hp, h0, hst, hv]

/-- Witness for C5 (amended): non-integer status text makes `suspend`
and `change_password` raise `APIError` carrying the raw response. -/
theorem c5_nonint_status_raw_message_witness :
    Client.suspend "<r><a><s>abc</s></a></r>"
      = .apiError (some "<r><a><s>abc</s></a></r>") 0
    ∧ Client.change_password
        "<r><a><b>x</b><b>x</b><b>x</b><b>x</b><b>x</b><b>abc</b></a></r>"
      = .apiError
          (some "<r><a><b>x</b><b>x</b><b>x</b><b>x</b><b>x</b><b>abc</b></a></r>") 0 := by
  constructor
  · exact ((c5_nonint_status_raw_message "<r><a><s>abc</s></a></r>" _ _ rfl rfl).1
      _ rfl rfl).1
  · exact (c5_nonint_status_raw_message
      "<r><a><b>x</b><b>x</b><b>x</b><b>x</b><b>x</b><b>abc</b></a></r>"
      _ _ rfl rfl).2 _ rfl rfl

/-- C6 counterexample: on a well-formed response whose root element has
no children, `suspend` neither returns a value nor raises `APIError`:
the `IndexError` from `root[0]` escapes, because the handlers catch
only `ParseError` and `ValueError`. -/
theorem c6_cex_exception_escape :
    (Client.suspend "<r></r>").isClassified = false := by decide

/-- C6 (amended): the "exactly one of typed success or APIError"
invariant holds unconditionally for the non-XML operations
(`domain_available`, `user_domains`, `user_by_domain`) of both facades;
the XML operations can instead let a parse error (`create`), an index
error (missing positional children) or a type error (empty status
field) escape. -/
theorem c6_scalar_ops_always_classified :
    ∀ s : String,
      (Client.domain_available s).isClassified = true
      ∧ (Client.user_domains s).isClassified = true
      ∧ (Client.user_by_domain s).isClassified = true
      ∧ (AsyncClient.domain_available s).isClassified = true
      ∧ (AsyncClient.user_domains s).isClassified = true
      ∧ (AsyncClient.user_by_domain s).isClassified = true := by
  intro s
  have hd : (Client.domain_available s).isClassified = true := by
    rcases h : pyIntOfString s with _ | n <;>
      simp [Client.domain_available, h, Outcome.isClassified]
  have hu : (Client.user_domains s).isClassified = true := by
    by_cases hn : s = "null"
    · simp [Client.user_domains, hn, Outcome.isClassified]
    · rcases h : literalEval s with _ | v <;>
        simp [Client.user_domains, hn, h, Outcome.isClassified]
  have hb : (Client.user_by_domain s).isClassified = true := by
    by_cases hn : s = "null"
    · simp [Client.user_by_domain, hn, Outcome.isClassified]
    · rcases h : literalEval s with _ | v <;>
        simp [Client.user_by_domain, hn, h, Outcome.isClassified]
  exact ⟨hd, hu, hb, hd, hu, hb⟩

/-- C7: the domain-availability classifier returns the integer value of
any integer-text response (in particular `"1"` yields `1`), and raises
`APIError` with the raw text as message and status 0 on any text not
convertible to an integer. -/
theorem c7_domain_available_classification (s : String) :
    (∀ n : Int, pyIntOfString s = some n →
      Client.domain_available s = .success n
      ∧ AsyncClient.domain_available s = .success n)
    ∧ (pyIntOfString s = Option.none →
      Client.domain_available s = .apiError (some s) 0
      ∧ AsyncClient.domain_available s = .apiError (some s) 0) := by
  constructor
  · intro n h
    constructor <;> simp [Client.domain_available, AsyncClient.domain_available, h]
  · intro h
    constructor <;> simp [Client.domain_available, AsyncClient.domain_available, h]

/-- Witness for C7 at the spec's concrete inputs: `"1"` returns the
integer 1 and `"abc"` raises `APIError("abc", 0)`. -/
theorem c7_domain_available_witness :
    Client.domain_available "1" = .success 1
    ∧ Client.domain_available "abc" = .apiError (some "abc") 0 := by
  exact ⟨((c7_domain_available_classification "1").1 1 rfl).1,
         ((c7_domain_available_classification "abc").2 rfl).1⟩

/-- C8: for the lookup classifiers, the response text `"null"` returns
the sentinel `0` (not a failure), `"['a.com', 'b.com']"` returns the
two-element sequence of those strings, and the unparseable text
`"{broken"` raises `APIError` with the raw text as message and
status 0. -/
theorem c8_lookup_classification :
    Client.user_domains "null" = .success (.int 0)
    ∧ Client.user_domains "['a.com', 'b.com']"
      = .success (.list [.str "a.com", .str "b.com"])
    ∧ Client.user_domains "\x7bbroken" = .apiError (some "\x7bbroken") 0
    ∧ Client.user_by_domain "null" = .success (.int 0)
    ∧ Client.user_by_domain "['a.com', 'b.com']"
      = .success (.list [.str "a.com", .str "b.com"])
    ∧ Client.user_by_domain "\x7bbroken" = .apiError (some "\x7bbroken") 0
    ∧ AsyncClient.user_domains "null" = .success (.int 0)
    ∧ AsyncClient.user_by_domain "null" = .success (.int 0) :=
  ⟨rfl, rfl, rfl, rfl, rfl, rfl, rfl, rfl⟩

/-- C9: classification is a pure function of the response text: running
the same operation twice on the same raw response (the second time from
the client state left by the first call) yields identical outcomes, and
the outcome does not depend on the client state at all. -/
theorem c9_classification_deterministic :
    ∀ (st : ClientData) (k : OpKind) (s : String),
      (Client.runOp st k s).1 = (Client.runOp (Client.runOp st k s).2 k s).1
      ∧ (AsyncClient.runOp st k s).1
        = (AsyncClient.runOp (AsyncClient.runOp st k s).2 k s).1
      ∧ (∀ st2 : ClientData, (Client.runOp st k s).1 = (Client.runOp st2 k s).1) := by
  intro st k s
  refine ⟨?_, ?_, fun st2 => ?_⟩ <;> cases k <;> rfl

/-- C10: any response text that is a valid Python literal is returned by
the lookup classifiers as the value it denotes — not only lists and
mappings; in particular `"0"` returns the integer 0, which is the very
value the `"null"` sentinel path returns, so the two are
indistinguishable at the public interface. -/
theorem c10_literal_passthrough :
    (∀ (s : String) (v : PyVal), s ≠ "null" → literalEval s = some v →
      Client.user_domains s = .success v
      ∧ Client.user_by_domain s = .success v
      ∧ AsyncClient.user_domains s = .success v
      ∧ AsyncClient.user_by_domain s = .success v)
    ∧ Client.user_domains "0" = .success (.int 0)
    ∧ Client.user_domains "null" = .success (.int 0) := by
  refine ⟨?_, rfl, rfl⟩
  intro s v hne hv
  refine ⟨?_, ?_, ?_, ?_⟩ <;>
    simp [Client.user_domains, Client.user_by_domain, AsyncClient.user_domains,
      AsyncClient.user_by_domain, hne, hv]

/-- Witness for C10: the list literal `"[]"` is passed through as the
empty list, and the bare integer literal `"7"` — not a list or mapping —
is passed through as the integer 7. -/
theorem c10_literal_passthrough_witness :
    Client.user_domains "[]" = .success (.list [])
    ∧ Client.user_domains "7" = .success (.int 7) := by
  exact ⟨(c10_literal_passthrough.1 "[]" (.list []) (by decide) rfl).1,
         (c10_literal_passthrough.1 "7" (.int 7) (by decide) rfl).1⟩
